import Mathlib

/-!
Shallow embedding of `crawler.py` (class `LabCrawler`) from the
lablaudo-bot repository, together with theorems settling the spec
claims about it.  HTML documents are modelled as parsed structures
(the relevant output of BeautifulSoup), HTTP traffic as an
environment mapping URLs to optional responses (`none` models a
`requests.RequestException`), and Python exceptions as `Except`.
Byte strings are modelled as `String` (only prefix tests matter).
-/

namespace Crawler

/-! ## String utilities mirroring the Python string operations used -/

/-- Boolean test that `pat` is a prefix of `l` (Python `startswith`). -/
def listStarts (pat : List Char) : List Char → Bool
  | [] => pat.isEmpty
  | b :: bs =>
    match pat with
    | [] => true
    | a :: as => a == b && listStarts as bs

/-- Boolean substring test (Python `in` on strings). -/
def hasSubList (pat : List Char) : List Char → Bool
  | [] => pat.isEmpty
  | c :: t => listStarts pat (c :: t) || hasSubList pat t

/-- Python `pat in s`. -/
def strHasSub (s pat : String) : Bool := hasSubList pat.toList s.toList

/-- Python `s.startswith(pat)`. -/
def strStarts (s pat : String) : Bool := listStarts pat.toList s.toList

/-- Python `s.endswith(pat)`. -/
def strEnds (s pat : String) : Bool := listStarts pat.toList.reverse s.toList.reverse

/-- Python `s.lower()` (ASCII case folding; all literals involved are ASCII). -/
def asciiLower (s : String) : String := String.mk (s.toList.map Char.toLower)

/-- Python `s.replace(' ', '')`. -/
def removeSpaces (s : String) : String := String.mk (s.toList.filter (fun c => c != ' '))

/-- Python `' '.join(classes)` (BeautifulSoup class attribute joining). -/
def joinSpace (classes : List String) : String := String.intercalate " " classes

/-- Drop characters satisfying `p` from both ends (helper for Python `strip`). -/
def dropWhileBoth (p : Char → Bool) (l : List Char) : List Char :=
  ((l.dropWhile p).reverse.dropWhile p).reverse

/-- Python `s.strip()` (whitespace). -/
def pyStrip (s : String) : String := String.mk (dropWhileBoth Char.isWhitespace s.toList)

/-- Python `s.strip('"\x27')` as used on the Content-Disposition filename. -/
def stripQuotes (s : String) : String :=
  String.mk (dropWhileBoth (fun c => c == '"' || c == '\'') s.toList)

/-- Python `s.split(sep)` on character lists, with an explicit fuel argument
so that the recursion is structural (the fuel is the input length). -/
def splitListAux (sep : List Char) : Nat → List Char → List (List Char)
  | _, [] => [[]]
  | 0, l => [l]
  | fuel + 1, c :: t =>
    if listStarts sep (c :: t) then
      [] :: splitListAux sep fuel (t.drop (sep.length - 1))
    else
      match splitListAux sep fuel t with
      | [] => [[c]]
      | g :: gs => (c :: g) :: gs

/-- Python `s.split(sep)` for a nonempty separator. -/
def pySplit (s sep : String) : List String :=
  (splitListAux sep.toList s.toList.length s.toList).map String.mk

/-! ## Parsed-HTML data model (the portion of the DOM the crawler inspects) -/

/-- A table cell: a `th` (header) or `td` (data) element with its
`style`/`class` attributes and visible text. -/
structure Cell where
  isHeader : Bool
  style : String
  classes : List String
  text : String
deriving DecidableEq

/-- A table row (`tr` element): its own `style`/`class`/`bgcolor`
attributes and its cells. -/
structure Row where
  style : String
  classes : List String
  bgcolor : String
  cells : List Cell
deriving DecidableEq

/-- An anchor element that carries an `href` attribute, with its visible text. -/
structure Anchor where
  href : String
  text : String
deriving DecidableEq

/-- An `input` element of the login form. -/
structure InputField where
  name : Option String
  ftype : String
  value : String
deriving DecidableEq

/-- A `form` element: optional `action` attribute and its inputs. -/
structure Form where
  action : Option String
  inputs : List InputField
deriving DecidableEq

/-- `<object type="application/pdf">`: the optional value of its
`<param id="base64-param">` child. -/
structure PdfObject where
  base64Param : Option String
deriving DecidableEq

/-- `<iframe type="application/pdf">`: its optional `src` attribute. -/
structure PdfIframe where
  src : Option String
deriving DecidableEq

/-- The parsed view of an HTML document, restricted to what the crawler reads. -/
structure Page where
  form : Option Form
  rows : List Row
  anchors : List Anchor
  pdfObject : Option PdfObject
  pdfIframe : Option PdfIframe
deriving DecidableEq

/-- An HTTP response: `ok` models `raise_for_status` succeeding (2xx),
`url` is the final URL after redirects, `text` the body, `content`
the body bytes, and `page` its parse. -/
structure Response where
  ok : Bool
  url : String
  text : String
  contentType : String
  contentDisposition : String
  content : String
  page : Page
deriving DecidableEq

/-- The network environment: `get`/`post` return `none` on a
`requests.RequestException`; `b64decode` returns `none` when
`base64.b64decode` raises. -/
structure Env where
  get : String → Option Response
  post : String → List (String × String) → Option Response
  b64decode : String → Option String

/-- The mutable state of a `LabCrawler` instance (besides the session cookies,
which live in `Env`): the cached `self.results_url`. -/
structure ClientState where
  results_url : Option String
deriving DecidableEq

def base_url : String := "https://lablaudo.com.br"

def login_url : String := base_url ++ "/acesso_paciente"

/-- The relative-URL joining rule used by the crawler (crawler.py lines
153-156, 215-220, 228-233, 281-284, 298-303). -/
def absolutize (href : String) : String :=
  if strStarts href "/" then base_url ++ href
  else if !(strStarts href "http") then base_url ++ "/" ++ href
  else href

/-! ## `_is_row_green` (crawler.py lines 18-59) -/

/-- The per-cell green test inside `_is_row_green` (lines 27-43). -/
def cellGreen (cell : Cell) : Bool :=
  let cell_style := asciiLower cell.style
  let cell_class := asciiLower (joinSpace cell.classes)
  let cell_text := asciiLower (pyStrip cell.text)
  strHasSub cell_style "green" || strHasSub cell_class "green" ||
  strHasSub cell_style "#00ff00" || strHasSub cell_style "#0f0" ||
  strHasSub cell_style "rgb(0,255,0)" ||
  strHasSub (removeSpaces cell_style) "background-color:green" ||
  strHasSub cell_class "success" || strHasSub cell_class "ready" ||
  strHasSub cell_text "disponivel" || strHasSub cell_text "pronto" ||
  strHasSub cell_text "liberado" || strHasSub cell_text "concluido"

/-- `_is_row_green` (lines 18-59): green indicators in the row's own
`style`/`class`/`bgcolor` attributes or any of its `td` cells. -/
def isRowGreen (row : Row) : Bool :=
  let style := asciiLower row.style
  let class_attr := asciiLower (joinSpace row.classes)
  let bgcolor := asciiLower row.bgcolor
  let cell_green := (row.cells.filter (fun c => !c.isHeader)).any cellGreen
  strHasSub style "green" ||
  strHasSub class_attr "green" ||
  strHasSub style "#00ff00" ||
  strHasSub style "#0f0" ||
  strHasSub style "rgb(0,255,0)" ||
  strHasSub (removeSpaces style) "background-color:green" ||
  strHasSub class_attr "success" ||
  strHasSub class_attr "ready" ||
  strHasSub class_attr "disponivel" ||
  cell_green ||
  strHasSub bgcolor "#8ff08f" ||
  strHasSub bgcolor "green"

/-! ## `check_results` (crawler.py lines 136-190) -/

/-- `row.get_text()`: the concatenated visible text of a row's cells. -/
def rowText (row : Row) : String := String.join (row.cells.map Cell.text)

/-- The row-exclusion test of `check_results` (lines 171-173): header rows,
rows with no data cell, and signature/action rows are skipped. -/
def rowExcluded (row : Row) : Bool :=
  row.cells.any Cell.isHeader ||
  !(row.cells.any (fun c => !c.isHeader)) ||
  strHasSub (asciiLower (rowText row)) "visualizar laudo" ||
  strHasSub (asciiLower (rowText row)) "assinatura"

/-- The qualifying rows kept by `check_results` (lines 168-175). -/
def resultsRows (rows : List Row) : List Row :=
  rows.filter (fun r => !rowExcluded r)

/-- The row-evaluation tail of `check_results` (lines 162-187). -/
def evaluateRows (rows : List Row) : Bool :=
  if rows.isEmpty then false
  else
    let rr := resultsRows rows
    if rr.isEmpty then false
    else rr.all isRowGreen

/-- The results-page discovery scan of `check_results` (line 150):
`soup.find('a', href=lambda x: x and (...))`. -/
def findDiscoveryAnchor (page : Page) : Option Anchor :=
  page.anchors.find? fun a =>
    a.href != "" &&
      (strHasSub (asciiLower a.href) "resultado" ||
       strHasSub (asciiLower a.href) "exame" ||
       strHasSub (asciiLower a.href) "laudo")

/-- `check_results` body (lines 138-187); `Except.error` models an uncaught
`requests` exception reaching the method's `except` clause. -/
def check_resultsE (env : Env) (st : ClientState) : Except Unit Bool :=
  match env.get (st.results_url.getD login_url) with
  | none => .error ()
  | some response =>
    if !response.ok then .error ()
    else
      if st.results_url.isNone || strHasSub (asciiLower response.text) "entrar" then
        match findDiscoveryAnchor response.page with
        | some link =>
          match env.get (absolutize link.href) with
          | none => .error ()
          | some r2 =>
            if !r2.ok then .error ()
            else .ok (evaluateRows r2.page.rows)
        | none => .ok (evaluateRows response.page.rows)
      else .ok (evaluateRows response.page.rows)

/-- `check_results` (lines 136-190), exceptions converted to `false`. -/
def check_results (env : Env) (st : ClientState) : Bool × ClientState :=
  (match check_resultsE env st with
   | .error _ => false
   | .ok b => b, st)

/-! ## `login` (crawler.py lines 61-134) -/

/-- The success-indicator vocabulary (lines 116-119). -/
def success_indicators : List String :=
  ["logout", "sair", "resultados", "results", "bem-vindo", "welcome",
   "dashboard", "painel", "exames", "laudos"]

/-- The login-success judgement on the post-login body (lines 112-126). -/
def loginSuccessJudge (body : String) : Bool :=
  let page_text := asciiLower body
  let has_success_indicator := success_indicators.any (fun i => strHasSub page_text i)
  let not_on_login := !(strHasSub page_text "entrar") || !(strHasSub page_text "login")
  has_success_indicator || not_on_login

/-- Python dict lookup on the assoc-list model of `login_data`. -/
def dictGet (d : List (String × String)) (k : String) : Option String :=
  (d.find? (fun p => p.1 == k)).map Prod.snd

/-- Python dict assignment `d[k] = v` (update in place or append). -/
def dictSet (d : List (String × String)) (k v : String) : List (String × String) :=
  if (d.find? (fun p => p.1 == k)).isSome then
    d.map (fun p => if p.1 == k then (k, v) else p)
  else d ++ [(k, v)]

/-- Python `not login_data.get(k)` (missing key or empty value). -/
def dictFalsy (d : List (String × String)) (k : String) : Bool :=
  match dictGet d k with
  | none => true
  | some v => v == ""

/-- The login payload construction (lines 75-96). -/
def buildLoginData (form : Form) (username password : String) : List (String × String) :=
  let d0 := [("username", username), ("password", password),
             ("identificacao", username), ("senha", password)]
  let d1 := form.inputs.foldl (fun d f =>
    if f.ftype == "hidden" then
      match f.name with
      | some n => if n != "" then dictSet d n f.value else d
      | none => d
    else d) d0
  form.inputs.foldl (fun d f =>
    let field_name := f.name.getD ""
    if (f.ftype == "text" || f.ftype == "email" || f.ftype == "number")
        && dictFalsy d field_name then
      dictSet d field_name username
    else if f.ftype == "password" && dictFalsy d field_name then
      dictSet d field_name password
    else d) d1

/-- The form-action resolution (lines 99-103). -/
def resolveAction (form : Form) : String :=
  let action_url := form.action.getD login_url
  if strStarts action_url "/" then base_url ++ action_url
  else if !(strStarts action_url "http") then login_url
  else action_url

/-- `login` body (lines 63-131). -/
def loginE (env : Env) (st : ClientState) (username password : String) :
    Except Unit (Bool × ClientState) :=
  match env.get login_url with
  | none => .error ()
  | some response =>
    if !response.ok then .error ()
    else
      match response.page.form with
      | none => .ok (false, st)
      | some form =>
        match env.post (resolveAction form) (buildLoginData form username password) with
        | none => .error ()
        | some login_response =>
          if !login_response.ok then .error ()
          else if loginSuccessJudge login_response.text then
            .ok (true, { results_url := some login_response.url })
          else .ok (false, st)

/-- `login` (lines 61-134), exceptions converted to `false`. -/
def login (env : Env) (st : ClientState) (username password : String) :
    Bool × ClientState :=
  match loginE env st username password with
  | .error _ => (false, st)
  | .ok r => r

/-! ## `get_pdf_link` (crawler.py lines 192-240) -/

/-- First-pass anchor test (lines 205-213): visible text contains one of
the target phrases. -/
def phraseMatch (a : Anchor) : Bool :=
  let link_text := asciiLower (pyStrip a.text)
  strHasSub link_text "visualizar laudo" || strHasSub link_text "baixar" ||
  strHasSub link_text "download"

/-- Second-pass anchor test (line 227): href contains `/get_laudo`. -/
def laudoMatch (a : Anchor) : Bool := strHasSub a.href "/get_laudo"

/-- `get_pdf_link` body (lines 194-237). -/
def get_pdf_linkE (env : Env) (st : ClientState) : Except Unit (Option String) :=
  match env.get (st.results_url.getD login_url) with
  | none => .error ()
  | some response =>
    if !response.ok then .error ()
    else
      match response.page.anchors.find? phraseMatch with
      | some link => .ok (some (absolutize link.href))
      | none =>
        match response.page.anchors.find? laudoMatch with
        | some link => .ok (some (absolutize link.href))
        | none => .ok none

/-- `get_pdf_link` (lines 192-240), exceptions converted to `none`. -/
def get_pdf_link (env : Env) (st : ClientState) : Option String × ClientState :=
  (match get_pdf_linkE env st with
   | .error _ => none
   | .ok r => r, st)

/-! ## `download_pdf` (crawler.py lines 242-349) -/

/-- The filename derivation of `download_pdf` (lines 323-344), from the
`Content-Disposition` header value and the request URL. -/
def deriveFilename (content_disposition pdf_url : String) : String :=
  let f0 := "lab_results.pdf"
  let f1 :=
    if strHasSub content_disposition "filename=" then
      stripQuotes ((pySplit content_disposition "filename=").getD 1 "")
    else f0
  let f2 :=
    if f1 == "lab_results.pdf" && pdf_url != "" then
      match (pySplit pdf_url "/").reverse.find?
          (fun part => part.toList.contains '.' && !(strStarts part "?")) with
      | some part => (pySplit part "?").getD 0 ""
      | none => f1
    else f1
  if !(strEnds (asciiLower f2) ".pdf") then f2 ++ ".pdf" else f2

/-- The accept-and-name tail of `download_pdf` (lines 319-346), reached by
the direct-PDF and unknown-content-type branches. -/
def finalizeTail (response : Response) (pdf_url : String) : Option (String × String) :=
  if strStarts response.content "%PDF" then
    some (response.content, deriveFilename response.contentDisposition pdf_url)
  else none

/-- Recovery strategy 1 (lines 260-275): base64 data in an
`<object type="application/pdf">` param tag. -/
def tryBase64 (env : Env) (page : Page) : Option (String × String) :=
  match page.pdfObject with
  | none => none
  | some obj =>
    match obj.base64Param with
    | none => none
    | some base64_data =>
      if base64_data == "" then none
      else
        match env.b64decode base64_data with
        | none => none
        | some pdf_content =>
          if strStarts pdf_content "%PDF" then some (pdf_content, "lab_results.pdf")
          else none

/-- Recovery strategy 2 (lines 277-292): fetch the `src` of an
`<iframe type="application/pdf">`.  A failed fetch raises (`Except.error`). -/
def tryIframe (env : Env) (page : Page) : Except Unit (Option (String × String)) :=
  match page.pdfIframe with
  | none => .ok none
  | some ifr =>
    match ifr.src with
    | none => .ok none
    | some iframe_src =>
      if iframe_src == "" then .ok none
      else
        match env.get (absolutize iframe_src) with
        | none => .error ()
        | some ir =>
          if !ir.ok then .error ()
          else if strStarts ir.content "%PDF" then
            .ok (some (ir.content, "lab_results.pdf"))
          else .ok none

/-- Recovery strategy 3 (lines 294-313): fetch each anchor whose href ends
in `.pdf` or contains `pdf`; accept the first `%PDF`-prefixed body. -/
def anchorSearch (env : Env) : List Anchor → Except Unit (Option (String × String))
  | [] => .ok none
  | a :: rest =>
    if strEnds a.href ".pdf" || strHasSub (asciiLower a.href) "pdf" then
      match env.get (absolutize a.href) with
      | none => .error ()
      | some pr =>
        if !pr.ok then .error ()
        else if strStarts pr.content "%PDF" then
          .ok (some (pr.content, "lab_results.pdf"))
        else anchorSearch env rest
    else anchorSearch env rest

/-- The HTML-content branch of `download_pdf` (lines 255-313): the three
recovery strategies in order, then `None`. -/
def htmlBranch (env : Env) (page : Page) : Except Unit (Option (String × String)) :=
  match tryBase64 env page with
  | some r => .ok (some r)
  | none =>
    match tryIframe env page with
    | .error e => .error e
    | .ok (some r) => .ok (some r)
    | .ok none => anchorSearch env page.anchors

/-- `download_pdf` body (lines 244-346). -/
def download_pdfE (env : Env) (pdf_url : String) :
    Except Unit (Option (String × String)) :=
  match env.get pdf_url with
  | none => .error ()
  | some response =>
    if !response.ok then .error ()
    else
      if strHasSub (asciiLower response.contentType) "pdf" then
        .ok (finalizeTail response pdf_url)
      else if strHasSub (asciiLower response.contentType) "html" then
        htmlBranch env response.page
      else if !(strStarts response.content "%PDF") then .ok none
      else .ok (finalizeTail response pdf_url)

/-- `download_pdf` (lines 242-349), exceptions converted to `none`;
the client state is never touched. -/
def download_pdf (env : Env) (st : ClientState) (pdf_url : String) :
    Option (String × String) × ClientState :=
  (match download_pdfE env pdf_url with
   | .error _ => none
   | .ok r => r, st)

/-! ## Bridging lemmas between the boolean string tests and `List` relations -/

theorem listStarts_iff (pat l : List Char) : listStarts pat l = true ↔ pat <+: l := by
  induction l generalizing pat with
  | nil =>
    cases pat with
    | nil => simp [listStarts]
    | cons a as => simp [listStarts]
  | cons b bs ih =>
    cases pat with
    | nil => simp [listStarts]
    | cons a as =>
      simp only [listStarts, Bool.and_eq_true, beq_iff_eq, List.cons_prefix_cons, ih]

theorem hasSubList_iff (pat l : List Char) : hasSubList pat l = true ↔ pat <:+: l := by
  induction l with
  | nil =>
    simp only [hasSubList, List.isEmpty_iff, List.infix_nil]
  | cons c t ih =>
    simp only [hasSubList, Bool.or_eq_true, listStarts_iff, ih, List.infix_cons_iff]

theorem strHasSub_iff (s pat : String) :
    strHasSub s pat = true ↔ pat.toList <:+: s.toList := by
  simp only [strHasSub, hasSubList_iff]

theorem evaluateRows_iff (rows : List Row) :
    evaluateRows rows = true ↔
      resultsRows rows ≠ [] ∧ ∀ r ∈ resultsRows rows, isRowGreen r = true := by
  unfold evaluateRows
  by_cases h : rows.isEmpty
  · have hnil : rows = [] := List.isEmpty_iff.mp h
    subst hnil
    simp [resultsRows]
  · simp only [h, if_false]
    by_cases h2 : (resultsRows rows).isEmpty
    · have : resultsRows rows = [] := List.isEmpty_iff.mp h2
      simp [h2, this]
    · have hne : resultsRows rows ≠ [] := fun hh => h2 (by simp [hh])
      simp [h2, hne, List.all_eq_true]

theorem strHasSub_eq_false (s pat : String) :
    strHasSub s pat = false ↔ ¬ pat.toList <:+: s.toList := by
  rw [← strHasSub_iff s pat, Bool.eq_false_iff, ne_eq]

/-! ## Concrete fixtures used by witnesses and counterexamples -/

/-- A qualifying result row marked ready through its `success` row class. -/
def greenRow : Row := ⟨"", ["success"], "", [⟨false, "", [], "Hemograma"⟩]⟩

/-- A results page whose body carries no login marker and whose table is all green. -/
def resultsResp : Response :=
  { ok := true, url := "https://lablaudo.com.br/resultados",
    text := "<h1>Laudos</h1>", contentType := "text/html",
    contentDisposition := "", content := "",
    page := { form := none, rows := [greenRow], anchors := [],
              pdfObject := none, pdfIframe := none } }

/-- Environment serving only the cached results page. -/
def env1 : Env :=
  { get := fun u => if u == "https://lablaudo.com.br/resultados" then some resultsResp else none,
    post := fun _ _ => none,
    b64decode := fun _ => none }

/-! ## Claim C1 -/

/-- Claim C1: on a fetched results page (cached location present, no login
marker in the body, so exactly this page is evaluated), `check_results`
returns true iff at least one qualifying row remains and every qualifying
row is green; zero qualifying rows or one non-green qualifying row force
false. -/
theorem check_results_green_iff (env : Env) (st : ClientState) (u : String) (r : Response)
    (h1 : st.results_url = some u) (h2 : env.get u = some r) (h3 : r.ok = true)
    (h4 : strHasSub (asciiLower r.text) "entrar" = false) :
    check_results env st = (evaluateRows r.page.rows, st) ∧
      ((check_results env st).1 = true ↔
        resultsRows r.page.rows ≠ [] ∧
          ∀ row ∈ resultsRows r.page.rows, isRowGreen row = true) := by
  have hE : check_resultsE env st = .ok (evaluateRows r.page.rows) := by
    unfold check_resultsE
    rw [h1]
    simp [h2, h3, h4]
  refine ⟨?_, ?_⟩
  · unfold check_results
    rw [hE]
  · unfold check_results
    rw [hE]
    exact evaluateRows_iff r.page.rows

/-- Witness for C1 at a concrete all-green single-row page. -/
theorem check_results_green_iff_witness :
    check_results env1 ⟨some "https://lablaudo.com.br/resultados"⟩ =
        (evaluateRows resultsResp.page.rows, ⟨some "https://lablaudo.com.br/resultados"⟩) ∧
      ((check_results env1 ⟨some "https://lablaudo.com.br/resultados"⟩).1 = true ↔
        resultsRows resultsResp.page.rows ≠ [] ∧
          ∀ row ∈ resultsRows resultsResp.page.rows, isRowGreen row = true) :=
  check_results_green_iff env1 ⟨some "https://lablaudo.com.br/resultados"⟩
    "https://lablaudo.com.br/resultados" resultsResp rfl (by decide) rfl (by decide)

/-! ## Claim C4 -/

/-- Any-header-cell test in `Prop` form. -/
theorem any_isHeader_iff (cs : List Cell) :
    cs.any Cell.isHeader = true ↔ ∃ c ∈ cs, c.isHeader = true := by
  simp [List.any_eq_true]

/-- No-data-cell test in `Prop` form. -/
theorem no_data_cell_iff (cs : List Cell) :
    (!(cs.any fun c => !c.isHeader)) = true ↔ ∀ c ∈ cs, c.isHeader = true := by
  induction cs with
  | nil => simp
  | cons c t ih =>
    cases h : c.isHeader <;> simp [List.any_cons, h, ih]

/-- The row-exclusion test of `check_results`, characterized declaratively. -/
theorem rowExcluded_iff (row : Row) :
    rowExcluded row = true ↔
      ((∃ c ∈ row.cells, c.isHeader = true) ∨
       (∀ c ∈ row.cells, c.isHeader = true) ∨
       "visualizar laudo".toList <:+: (asciiLower (rowText row)).toList ∨
       "assinatura".toList <:+: (asciiLower (rowText row)).toList) := by
  unfold rowExcluded
  rw [Bool.or_eq_true, Bool.or_eq_true, Bool.or_eq_true, any_isHeader_iff,
    no_data_cell_iff, strHasSub_iff, strHasSub_iff]
  simp only [or_assoc]

theorem rowExcluded_eq_false (row : Row) :
    rowExcluded row = false ↔
      ¬((∃ c ∈ row.cells, c.isHeader = true) ∨
        (∀ c ∈ row.cells, c.isHeader = true) ∨
        "visualizar laudo".toList <:+: (asciiLower (rowText row)).toList ∨
        "assinatura".toList <:+: (asciiLower (rowText row)).toList) := by
  rw [Bool.eq_false_iff, ne_eq, rowExcluded_iff]

/-- Claim C4: a row is excluded from greenness evaluation exactly when it
contains a header cell, contains no data cell, or its visible text contains
"visualizar laudo" or "assinatura"; the verdict of `check_results` is a
function of the qualifying rows alone (excluded rows are never evaluated). -/
theorem row_exclusion_exact (rows : List Row) (row : Row) :
    (row ∈ resultsRows rows ↔
      row ∈ rows ∧
        ¬((∃ c ∈ row.cells, c.isHeader = true) ∨
          (∀ c ∈ row.cells, c.isHeader = true) ∨
          "visualizar laudo".toList <:+: (asciiLower (rowText row)).toList ∨
          "assinatura".toList <:+: (asciiLower (rowText row)).toList)) ∧
    evaluateRows rows =
      (!(resultsRows rows).isEmpty && (resultsRows rows).all isRowGreen) := by
  constructor
  · rw [resultsRows, List.mem_filter, Bool.not_eq_true', rowExcluded_eq_false]
  · unfold evaluateRows
    by_cases h : rows.isEmpty
    · have hnil : rows = [] := List.isEmpty_iff.mp h
      subst hnil
      simp [resultsRows]
    · simp only [h, if_false]
      by_cases h2 : (resultsRows rows).isEmpty
      · simp [h2]
      · simp [h2]

/-! ## Claim C5 -/

/-- Greenness judgement modelled from claim C5's wording: one fixed
vocabulary matched (case-insensitive substring) across the row's own
style/class/bgcolor attributes, any cell's style/class attributes, and any
cell's visible text — colour tokens against style attributes (plus the
whitespace-stripped `background-color:green` form and `#8ff08f` against the
row's bgcolor), class tokens `success`/`ready`/`disponivel` against class
attributes, and the Portuguese status words against cell text. -/
def claimRowGreen (row : Row) : Bool :=
  let lstyle := asciiLower row.style
  let lclass := asciiLower (joinSpace row.classes)
  let lbg := asciiLower row.bgcolor
  let colorToks := ["green", "#00ff00", "#0f0", "rgb(0,255,0)"]
  let classToks := ["success", "ready", "disponivel"]
  let textToks := ["disponivel", "pronto", "liberado", "concluido"]
  colorToks.any (fun t => strHasSub lstyle t) ||
  strHasSub (removeSpaces lstyle) "background-color:green" ||
  classToks.any (fun t => strHasSub lclass t) ||
  strHasSub lbg "#8ff08f" ||
  row.cells.any (fun c =>
    let cs := asciiLower c.style
    let cc := asciiLower (joinSpace c.classes)
    let ct := asciiLower (pyStrip c.text)
    colorToks.any (fun t => strHasSub cs t) ||
    strHasSub (removeSpaces cs) "background-color:green" ||
    classToks.any (fun t => strHasSub cc t) ||
    textToks.any (fun t => strHasSub ct t))

/-- A row whose sole data cell carries the class `disponivel` and nothing else. -/
def cexRow : Row := ⟨"", [], "", [⟨false, "", ["disponivel"], ""⟩]⟩

/-- Claim C5 counterexample: a cell class containing `disponivel` is a match
of the claimed vocabulary in a cell's class attribute, yet `_is_row_green`
does not mark the row green (the code checks `disponivel` in the row's class
and in cell text only, not in cell classes). -/
theorem row_green_claim_cex :
    isRowGreen cexRow = false ∧ claimRowGreen cexRow = true := by decide

/-- The per-cell green test, characterized declaratively (code order). -/
theorem cellGreen_iff (c : Cell) :
    cellGreen c = true ↔
      ("green".toList <:+: (asciiLower c.style).toList ∨
       "green".toList <:+: (asciiLower (joinSpace c.classes)).toList ∨
       "#00ff00".toList <:+: (asciiLower c.style).toList ∨
       "#0f0".toList <:+: (asciiLower c.style).toList ∨
       "rgb(0,255,0)".toList <:+: (asciiLower c.style).toList ∨
       "background-color:green".toList <:+: (removeSpaces (asciiLower c.style)).toList ∨
       "success".toList <:+: (asciiLower (joinSpace c.classes)).toList ∨
       "ready".toList <:+: (asciiLower (joinSpace c.classes)).toList ∨
       "disponivel".toList <:+: (asciiLower (pyStrip c.text)).toList ∨
       "pronto".toList <:+: (asciiLower (pyStrip c.text)).toList ∨
       "liberado".toList <:+: (asciiLower (pyStrip c.text)).toList ∨
       "concluido".toList <:+: (asciiLower (pyStrip c.text)).toList) := by
  simp only [cellGreen, Bool.or_eq_true, strHasSub_iff, or_assoc]

/-- Claim C5 amended: the green vocabulary is location-specific — row style
is matched against green/#00ff00/#0f0/rgb(0,255,0)/stripped
background-color:green; row class against green/success/ready/disponivel;
row bgcolor against #8ff08f/green; and for data cells (`td`) only: cell
style against the colour tokens, cell class against green/success/ready
(not `disponivel`), and stripped cell text against the status words;
case-insensitive substring matching, any one match suffices. -/
theorem isRowGreen_characterization (row : Row) :
    isRowGreen row = true ↔
      ("green".toList <:+: (asciiLower row.style).toList ∨
       "green".toList <:+: (asciiLower (joinSpace row.classes)).toList ∨
       "#00ff00".toList <:+: (asciiLower row.style).toList ∨
       "#0f0".toList <:+: (asciiLower row.style).toList ∨
       "rgb(0,255,0)".toList <:+: (asciiLower row.style).toList ∨
       "background-color:green".toList <:+: (removeSpaces (asciiLower row.style)).toList ∨
       "success".toList <:+: (asciiLower (joinSpace row.classes)).toList ∨
       "ready".toList <:+: (asciiLower (joinSpace row.classes)).toList ∨
       "disponivel".toList <:+: (asciiLower (joinSpace row.classes)).toList ∨
       (∃ c ∈ row.cells, c.isHeader = false ∧
         ("green".toList <:+: (asciiLower c.style).toList ∨
          "green".toList <:+: (asciiLower (joinSpace c.classes)).toList ∨
          "#00ff00".toList <:+: (asciiLower c.style).toList ∨
          "#0f0".toList <:+: (asciiLower c.style).toList ∨
          "rgb(0,255,0)".toList <:+: (asciiLower c.style).toList ∨
          "background-color:green".toList <:+: (removeSpaces (asciiLower c.style)).toList ∨
          "success".toList <:+: (asciiLower (joinSpace c.classes)).toList ∨
          "ready".toList <:+: (asciiLower (joinSpace c.classes)).toList ∨
          "disponivel".toList <:+: (asciiLower (pyStrip c.text)).toList ∨
          "pronto".toList <:+: (asciiLower (pyStrip c.text)).toList ∨
          "liberado".toList <:+: (asciiLower (pyStrip c.text)).toList ∨
          "concluido".toList <:+: (asciiLower (pyStrip c.text)).toList)) ∨
       "#8ff08f".toList <:+: (asciiLower row.bgcolor).toList ∨
       "green".toList <:+: (asciiLower row.bgcolor).toList) := by
  simp only [isRowGreen, Bool.or_eq_true, List.any_eq_true, List.mem_filter,
    Bool.not_eq_true', cellGreen_iff, and_assoc, strHasSub_iff, or_assoc]

/-! ## Claim C3 -/

/-- The login-success judgement of the code, characterized declaratively:
marker presence, or absence of at least one of "entrar"/"login". -/
theorem loginSuccessJudge_iff (body : String) :
    loginSuccessJudge body = true ↔
      ((∃ m ∈ success_indicators, m.toList <:+: (asciiLower body).toList) ∨
       ¬("entrar".toList <:+: (asciiLower body).toList) ∨
       ¬("login".toList <:+: (asciiLower body).toList)) := by
  simp only [loginSuccessJudge, Bool.or_eq_true, List.any_eq_true, strHasSub_iff,
    Bool.not_eq_true', strHasSub_eq_false]

/-- Login-success judgement modelled from claim C3's wording: a marker of
the fixed post-login set occurs in the body, or BOTH the token "entrar"
and the token "login" are absent from the body. -/
def claimLoginJudge (body : String) : Bool :=
  let page_text := asciiLower body
  success_indicators.any (fun i => strHasSub page_text i) ||
  (!(strHasSub page_text "entrar") && !(strHasSub page_text "login"))

/-- The served login page: a form with no inputs and no action attribute. -/
def loginPageResp : Response :=
  { ok := true, url := login_url, text := "acesso",
    contentType := "text/html", contentDisposition := "", content := "",
    page := { form := some { action := none, inputs := [] }, rows := [],
              anchors := [], pdfObject := none, pdfIframe := none } }

/-- A post-login response whose body is exactly "login": no success marker,
"entrar" absent, "login" present. -/
def afterLoginResp : Response :=
  { ok := true, url := "https://lablaudo.com.br/home", text := "login",
    contentType := "text/html", contentDisposition := "", content := "",
    page := { form := none, rows := [], anchors := [],
              pdfObject := none, pdfIframe := none } }

/-- Environment serving the login form and the post-login body above. -/
def env3 : Env :=
  { get := fun u => if u == login_url then some loginPageResp else none,
    post := fun _ _ => some afterLoginResp,
    b64decode := fun _ => none }

/-- Claim C3 counterexample: on a post-login body that still contains the
token "login" and carries no success marker, the claim's judgement (both
tokens absent) is false, yet `login` returns true — the code ORs the two
absences, so one absent token suffices. -/
theorem login_claim_judge_cex :
    login env3 ⟨none⟩ "user" "pass" = (true, ⟨some "https://lablaudo.com.br/home"⟩) ∧
      claimLoginJudge afterLoginResp.text = false := by decide

/-- Claim C3 amended: `login` judges success as marker presence OR absence
of at least one of the tokens "entrar"/"login" (signal (b) fails only when
both tokens appear in the body). -/
theorem login_success_judgement (env : Env) (st : ClientState) (u p : String)
    (r : Response) (f : Form) (lr : Response)
    (h1 : env.get login_url = some r) (h2 : r.ok = true) (h3 : r.page.form = some f)
    (h4 : env.post (resolveAction f) (buildLoginData f u p) = some lr)
    (h5 : lr.ok = true) :
    (login env st u p).1 = true ↔
      ((∃ m ∈ success_indicators, m.toList <:+: (asciiLower lr.text).toList) ∨
       ¬("entrar".toList <:+: (asciiLower lr.text).toList) ∨
       ¬("login".toList <:+: (asciiLower lr.text).toList)) := by
  unfold login loginE
  simp only [h1, h2, h3, h4, h5, Bool.not_true, if_false]
  by_cases hJ : loginSuccessJudge lr.text = true
  · simp only [hJ, if_true]
    exact iff_of_true rfl ((loginSuccessJudge_iff lr.text).mp hJ)
  · have hJf : loginSuccessJudge lr.text = false := Bool.eq_false_iff.mpr hJ
    simp only [hJf, Bool.false_eq_true, if_false]
    refine iff_of_false (by simp) ?_
    intro hR
    exact hJ ((loginSuccessJudge_iff lr.text).mpr hR)

/-- Witness for the amended C3 at the concrete environment above. -/
theorem login_success_judgement_witness :
    (login env3 ⟨none⟩ "user" "pass").1 = true ↔
      ((∃ m ∈ success_indicators, m.toList <:+: (asciiLower afterLoginResp.text).toList) ∨
       ¬("entrar".toList <:+: (asciiLower afterLoginResp.text).toList) ∨
       ¬("login".toList <:+: (asciiLower afterLoginResp.text).toList)) :=
  login_success_judgement env3 ⟨none⟩ "user" "pass" loginPageResp ⟨none, []⟩
    afterLoginResp (by decide) rfl rfl rfl rfl

/-! ## Claim C6 -/

/-- Claim C6: on a fetched page, a phrase-matched anchor always wins; the
`/get_laudo` pass runs only when no anchor phrase-matches; with no candidate
in either pass the result is null. -/
theorem get_pdf_link_priority (env : Env) (st : ClientState) (u : String) (r : Response)
    (h1 : st.results_url = some u) (h2 : env.get u = some r) (h3 : r.ok = true) :
    ((∃ a ∈ r.page.anchors, phraseMatch a = true) →
      ∃ a ∈ r.page.anchors, phraseMatch a = true ∧
        (get_pdf_link env st).1 = some (absolutize a.href)) ∧
    ((∀ a ∈ r.page.anchors, phraseMatch a = false) →
      ((∃ a ∈ r.page.anchors, laudoMatch a = true) →
        ∃ a ∈ r.page.anchors, laudoMatch a = true ∧
          (get_pdf_link env st).1 = some (absolutize a.href)) ∧
      ((∀ a ∈ r.page.anchors, laudoMatch a = false) →
        (get_pdf_link env st).1 = none)) := by
  have hE : get_pdf_linkE env st =
      (match r.page.anchors.find? phraseMatch with
       | some link => .ok (some (absolutize link.href))
       | none =>
         match r.page.anchors.find? laudoMatch with
         | some link => .ok (some (absolutize link.href))
         | none => .ok none) := by
    unfold get_pdf_linkE
    simp only [h1, Option.getD_some, h2, h3, Bool.not_true, Bool.false_eq_true, if_false]
  have keyP : ∀ o, r.page.anchors.find? phraseMatch = some o →
      (get_pdf_link env st).1 = some (absolutize o.href) := by
    intro o ho
    unfold get_pdf_link
    rw [hE, ho]
  have keyL : ∀ o, r.page.anchors.find? phraseMatch = none →
      r.page.anchors.find? laudoMatch = some o →
      (get_pdf_link env st).1 = some (absolutize o.href) := by
    intro o hn ho
    unfold get_pdf_link
    rw [hE, hn, ho]
  have keyN : r.page.anchors.find? phraseMatch = none →
      r.page.anchors.find? laudoMatch = none →
      (get_pdf_link env st).1 = none := by
    intro hn hm
    unfold get_pdf_link
    rw [hE, hn, hm]
  refine ⟨?_, ?_⟩
  · intro hex
    have hs : (r.page.anchors.find? phraseMatch).isSome := by
      rw [List.find?_isSome]
      exact hex
    obtain ⟨b, hb⟩ := Option.isSome_iff_exists.mp hs
    exact ⟨b, List.mem_of_find?_eq_some hb, List.find?_some hb, keyP b hb⟩
  · intro hall
    have hn : r.page.anchors.find? phraseMatch = none :=
      List.find?_eq_none.mpr (fun a ha => by simp [hall a ha])
    refine ⟨?_, ?_⟩
    · intro hex
      have hs : (r.page.anchors.find? laudoMatch).isSome := by
        rw [List.find?_isSome]
        exact hex
      obtain ⟨b, hb⟩ := Option.isSome_iff_exists.mp hs
      exact ⟨b, List.mem_of_find?_eq_some hb, List.find?_some hb, keyL b hn hb⟩
    · intro hall2
      exact keyN hn (List.find?_eq_none.mpr (fun a ha => by simp [hall2 a ha]))

/-- Anchors fixture: a `/get_laudo` anchor first, a phrase anchor second. -/
def laudoAnchor : Anchor := ⟨"/get_laudo?id=1", "abrir"⟩

def phraseAnchor : Anchor := ⟨"/documentos/exame_1", "Baixar"⟩

def linksResp : Response :=
  { ok := true, url := "https://lablaudo.com.br/res6", text := "laudos",
    contentType := "text/html", contentDisposition := "", content := "",
    page := { form := none, rows := [], anchors := [laudoAnchor, phraseAnchor],
              pdfObject := none, pdfIframe := none } }

def env6 : Env :=
  { get := fun u => if u == "https://lablaudo.com.br/res6" then some linksResp else none,
    post := fun _ _ => none,
    b64decode := fun _ => none }

/-- Witness for C6: with both anchor kinds present, the phrase-matched
anchor's absolutized href is returned. -/
theorem get_pdf_link_priority_witness :
    ∃ a ∈ linksResp.page.anchors, phraseMatch a = true ∧
      (get_pdf_link env6 ⟨some "https://lablaudo.com.br/res6"⟩).1 =
        some (absolutize a.href) :=
  (get_pdf_link_priority env6 ⟨some "https://lablaudo.com.br/res6"⟩
      "https://lablaudo.com.br/res6" linksResp rfl (by decide) rfl).1
    ⟨phraseAnchor, by decide, by decide⟩

/-! ## Claim C2 -/

theorem finalizeTail_magic (r : Response) (u : String) (p : String × String)
    (h : finalizeTail r u = some p) : strStarts p.1 "%PDF" = true := by
  unfold finalizeTail at h
  split at h
  case isTrue hc =>
    cases h
    exact hc
  case isFalse hc =>
    cases h

theorem tryBase64_magic (env : Env) (page : Page) (p : String × String)
    (h : tryBase64 env page = some p) : strStarts p.1 "%PDF" = true := by
  unfold tryBase64 at h
  cases hO : page.pdfObject with
  | none =>
    simp only [hO] at h
    exact Option.noConfusion h
  | some obj =>
    simp only [hO] at h
    cases hP : obj.base64Param with
    | none =>
      simp only [hP] at h
      exact Option.noConfusion h
    | some bd =>
      simp only [hP] at h
      by_cases hb : (bd == "") = true
      · rw [if_pos hb] at h
        exact Option.noConfusion h
      · rw [if_neg hb] at h
        cases hd : env.b64decode bd with
        | none =>
          simp only [hd] at h
          exact Option.noConfusion h
        | some pc =>
          simp only [hd] at h
          by_cases hp : strStarts pc "%PDF" = true
          · rw [if_pos hp] at h
            injection h with h'
            subst h'
            exact hp
          · rw [if_neg hp] at h
            exact Option.noConfusion h

theorem tryIframe_magic (env : Env) (page : Page) (p : String × String)
    (h : tryIframe env page = .ok (some p)) : strStarts p.1 "%PDF" = true := by
  unfold tryIframe at h
  cases hI : page.pdfIframe with
  | none =>
    simp only [hI] at h
    exact Option.noConfusion (Except.ok.inj h)
  | some ifr =>
    simp only [hI] at h
    cases hS : ifr.src with
    | none =>
      simp only [hS] at h
      exact Option.noConfusion (Except.ok.inj h)
    | some s =>
      simp only [hS] at h
      by_cases he : (s == "") = true
      · rw [if_pos he] at h
        exact Option.noConfusion (Except.ok.inj h)
      · rw [if_neg he] at h
        cases hg : env.get (absolutize s) with
        | none =>
          simp only [hg] at h
          exact Except.noConfusion h
        | some ir =>
          simp only [hg] at h
          by_cases hok : (!ir.ok) = true
          · rw [if_pos hok] at h
            exact Except.noConfusion h
          · rw [if_neg hok] at h
            by_cases hp : strStarts ir.content "%PDF" = true
            · rw [if_pos hp] at h
              injection h with h'
              injection h' with h''
              subst h''
              exact hp
            · rw [if_neg hp] at h
              exact Option.noConfusion (Except.ok.inj h)

theorem anchorSearch_magic (env : Env) (l : List Anchor) (p : String × String)
    (h : anchorSearch env l = .ok (some p)) : strStarts p.1 "%PDF" = true := by
  induction l with
  | nil =>
    unfold anchorSearch at h
    exact Option.noConfusion (Except.ok.inj h)
  | cons a rest ih =>
    unfold anchorSearch at h
    by_cases hc : (strEnds a.href ".pdf" || strHasSub (asciiLower a.href) "pdf") = true
    · rw [if_pos hc] at h
      cases hg : env.get (absolutize a.href) with
      | none =>
        simp only [hg] at h
        exact Except.noConfusion h
      | some pr =>
        simp only [hg] at h
        by_cases hok : (!pr.ok) = true
        · rw [if_pos hok] at h
          exact Except.noConfusion h
        · rw [if_neg hok] at h
          by_cases hp : strStarts pr.content "%PDF" = true
          · rw [if_pos hp] at h
            injection h with h'
            injection h' with h''
            subst h''
            exact hp
          · rw [if_neg hp] at h
            exact ih h
    · rw [if_neg hc] at h
      exact ih h

theorem htmlBranch_magic (env : Env) (page : Page) (p : String × String)
    (h : htmlBranch env page = .ok (some p)) : strStarts p.1 "%PDF" = true := by
  unfold htmlBranch at h
  cases hB : tryBase64 env page with
  | some r =>
    simp only [hB] at h
    injection h with h'
    injection h' with h''
    subst h''
    exact tryBase64_magic env page r hB
  | none =>
    simp only [hB] at h
    cases hI : tryIframe env page with
    | error e =>
      simp only [hI] at h
      exact Except.noConfusion h
    | ok v =>
      simp only [hI] at h
      cases v with
      | some r =>
        injection h with h'
        injection h' with h''
        subst h''
        exact tryIframe_magic env page r hI
      | none => exact anchorSearch_magic env page.anchors p h

theorem download_pdfE_magic (env : Env) (url : String) (p : String × String)
    (h : download_pdfE env url = .ok (some p)) : strStarts p.1 "%PDF" = true := by
  unfold download_pdfE at h
  cases hg : env.get url with
  | none =>
    simp only [hg] at h
    exact Except.noConfusion h
  | some response =>
    simp only [hg] at h
    by_cases hok : (!response.ok) = true
    · rw [if_pos hok] at h
      exact Except.noConfusion h
    · rw [if_neg hok] at h
      by_cases hpdf : strHasSub (asciiLower response.contentType) "pdf" = true
      · rw [if_pos hpdf] at h
        injection h with h'
        exact finalizeTail_magic response url p h'
      · rw [if_neg hpdf] at h
        by_cases hhtml : strHasSub (asciiLower response.contentType) "html" = true
        · rw [if_pos hhtml] at h
          exact htmlBranch_magic env response.page p h
        · rw [if_neg hhtml] at h
          by_cases hnp : (!(strStarts response.content "%PDF")) = true
          · rw [if_pos hnp] at h
            exact Option.noConfusion (Except.ok.inj h)
          · rw [if_neg hnp] at h
            injection h with h'
            exact finalizeTail_magic response url p h'

/-- Claim C2: whenever `download_pdf` returns a payload, its bytes begin
with the 4-byte signature `%PDF`; no candidate payload lacking that prefix
is ever returned, whatever the declared content type or recovery path. -/
theorem download_pdf_magic (env : Env) (st : ClientState) (url : String)
    (p : String × String) (h : (download_pdf env st url).1 = some p) :
    strStarts p.1 "%PDF" = true := by
  unfold download_pdf at h
  cases hE : download_pdfE env url with
  | error e =>
    simp only [hE] at h
    exact Option.noConfusion h
  | ok v =>
    simp only [hE] at h
    subst h
    exact download_pdfE_magic env url p hE

/-- A direct PDF response for the C2 witness. -/
def pdfResp : Response :=
  { ok := true, url := "https://lablaudo.com.br/laudo.pdf", text := "",
    contentType := "application/pdf", contentDisposition := "",
    content := "%PDF-1.7 data",
    page := { form := none, rows := [], anchors := [],
              pdfObject := none, pdfIframe := none } }

def env2 : Env :=
  { get := fun u => if u == "https://lablaudo.com.br/laudo.pdf" then some pdfResp else none,
    post := fun _ _ => none,
    b64decode := fun _ => none }

/-- Witness for C2 at a concrete direct-PDF download. -/
theorem download_pdf_magic_witness :
    strStarts ("%PDF-1.7 data", "laudo.pdf").1 "%PDF" = true :=
  download_pdf_magic env2 ⟨some "https://lablaudo.com.br/laudo.pdf"⟩
    "https://lablaudo.com.br/laudo.pdf" ("%PDF-1.7 data", "laudo.pdf") (by decide)

/-! ## Claim C7 -/

/-- A direct-PDF response with no Content-Disposition header, fetched from
the URL of claim C7's fallback example. -/
def dlResp : Response :=
  { ok := true, url := "https://lablaudo.com.br/download?x=1", text := "",
    contentType := "application/pdf", contentDisposition := "",
    content := "%PDF-1.4",
    page := { form := none, rows := [], anchors := [],
              pdfObject := none, pdfIframe := none } }

def env7 : Env :=
  { get := fun u => if u == "https://lablaudo.com.br/download?x=1" then some dlResp else none,
    post := fun _ _ => none,
    b64decode := fun _ => none }

/-- Claim C7 at the code: the header-derived part of the claim holds
(`attachment; filename="report.pdf"` yields `report.pdf`), but the
no-header fallback does not: for the URL
`https://lablaudo.com.br/download?x=1`, whose last path segment has no dot,
the code scans ALL `/`-separated URL parts from the end — including the
host — picks the dot-containing part `lablaudo.com.br`, and returns the
filename `lablaudo.com.br.pdf` instead of the claimed `lab_results.pdf`. -/
theorem download_pdf_filename_divergence :
    deriveFilename "attachment; filename=\"report.pdf\"" "https://lablaudo.com.br/d"
        = "report.pdf" ∧
    (download_pdf env7 ⟨some "https://lablaudo.com.br/res"⟩
        "https://lablaudo.com.br/download?x=1").1 =
      some ("%PDF-1.4", "lablaudo.com.br.pdf") ∧
    "lablaudo.com.br.pdf" ≠ "lab_results.pdf" := by decide

/-! ## Claim C8 -/

/-- Claim C8: every public operation is a total function returning an
ordinary value, and every modelled exception (network failure or non-2xx
status raised by `raise_for_status`, at any fetch inside the operation) is
caught at the operation boundary and converted to the negative sentinel
with the client state unchanged, never propagated to the caller. -/
theorem public_ops_catch_all (env : Env) (st : ClientState) (u p url : String) :
    (loginE env st u p = .error () → login env st u p = (false, st)) ∧
    (check_resultsE env st = .error () → check_results env st = (false, st)) ∧
    (get_pdf_linkE env st = .error () → get_pdf_link env st = (none, st)) ∧
    (download_pdfE env url = .error () → download_pdf env st url = (none, st)) := by
  refine ⟨?_, ?_, ?_, ?_⟩ <;> intro h
  · unfold login
    rw [h]
  · unfold check_results
    rw [h]
  · unfold get_pdf_link
    rw [h]
  · unfold download_pdf
    rw [h]

/-- The all-failing network environment. -/
def envFail : Env :=
  { get := fun _ => none, post := fun _ _ => none, b64decode := fun _ => none }

/-- Witness for C8: with every fetch failing, all four operations return
their negative sentinels and leave the state unchanged. -/
theorem public_ops_catch_all_witness :
    login envFail ⟨none⟩ "u" "p" = (false, ⟨none⟩) ∧
    check_results envFail ⟨none⟩ = (false, ⟨none⟩) ∧
    get_pdf_link envFail ⟨none⟩ = (none, ⟨none⟩) ∧
    download_pdf envFail ⟨none⟩ "x" = (none, ⟨none⟩) :=
  ⟨(public_ops_catch_all envFail ⟨none⟩ "u" "p" "x").1 rfl,
   (public_ops_catch_all envFail ⟨none⟩ "u" "p" "x").2.1 rfl,
   (public_ops_catch_all envFail ⟨none⟩ "u" "p" "x").2.2.1 rfl,
   (public_ops_catch_all envFail ⟨none⟩ "u" "p" "x").2.2.2 rfl⟩

/-! ## Claim C9 -/

/-- The results page reached through discovery from the login page. -/
def discoveredResp : Response :=
  { ok := true, url := "https://lablaudo.com.br/resultados", text := "laudos prontos",
    contentType := "text/html", contentDisposition := "", content := "",
    page := { form := none, rows := [greenRow], anchors := [],
              pdfObject := none, pdfIframe := none } }

/-- A login page carrying a results link, as served to an unauthenticated
client. -/
def loginWithLinkResp : Response :=
  { ok := true, url := login_url, text := "entrar",
    contentType := "text/html", contentDisposition := "", content := "",
    page := { form := none, rows := [], anchors := [⟨"/resultados", "Resultados"⟩],
              pdfObject := none, pdfIframe := none } }

def env9 : Env :=
  { get := fun u =>
      if u == login_url then some loginWithLinkResp
      else if u == "https://lablaudo.com.br/resultados" then some discoveredResp
      else none,
    post := fun _ _ => none,
    b64decode := fun _ => none }

/-- Claim C9 counterexample: on a client with no successful authenticate
(`results_url` unset), `check_results` does not fail explicitly: it
silently fetches the login page, follows the discovered results link and
returns an ordinary (here even positive) verdict, state unchanged. -/
theorem unauthenticated_call_cex :
    check_results env9 ⟨none⟩ = (true, ⟨none⟩) := by decide

/-- Claim C9 amended: before any successful authenticate, the calls do not
fail explicitly; `check_results` falls back to the login URL, attempts
results-page discovery, and — when no results link is found — evaluates the
login page's own rows, returning an ordinary boolean, state unchanged. -/
theorem check_results_unauthenticated (env : Env) (st : ClientState) (r : Response)
    (h0 : st.results_url = none) (h1 : env.get login_url = some r) (h2 : r.ok = true)
    (h3 : findDiscoveryAnchor r.page = none) :
    check_results env st = (evaluateRows r.page.rows, st) := by
  have hE : check_resultsE env st = .ok (evaluateRows r.page.rows) := by
    unfold check_resultsE
    rw [h0]
    simp [h1, h2, h3]
  unfold check_results
  rw [hE]

/-- A login page without any results link. -/
def plainLoginResp : Response :=
  { ok := true, url := login_url, text := "entrar",
    contentType := "text/html", contentDisposition := "", content := "",
    page := { form := none, rows := [], anchors := [⟨"/ajuda", "Ajuda"⟩],
              pdfObject := none, pdfIframe := none } }

def env9b : Env :=
  { get := fun u => if u == login_url then some plainLoginResp else none,
    post := fun _ _ => none,
    b64decode := fun _ => none }

/-- Witness for the amended C9. -/
theorem check_results_unauthenticated_witness :
    check_results env9b ⟨none⟩ = (evaluateRows plainLoginResp.page.rows, ⟨none⟩) :=
  check_results_unauthenticated env9b ⟨none⟩ plainLoginResp rfl (by decide) rfl (by decide)

/-! ## Claim C10 -/

/-- Claim C10: `results_url` is written only by a `login` call returning
true (which caches the final redirected URL); a false `login` leaves the
state unchanged, and `check_results` (whose discovery step uses the
discovered URL locally without caching it), `get_pdf_link` and
`download_pdf` never modify it. -/
theorem results_url_frame (env : Env) (st : ClientState) (u p url : String) :
    ((login env st u p).1 = false → (login env st u p).2 = st) ∧
    ((login env st u p).1 = true → ∃ v, (login env st u p).2.results_url = some v) ∧
    (check_results env st).2 = st ∧
    (get_pdf_link env st).2 = st ∧
    (download_pdf env st url).2 = st := by
  have key : login env st u p = (false, st) ∨
      ∃ v, login env st u p = (true, ⟨some v⟩) := by
    unfold login loginE
    cases hg : env.get login_url with
    | none =>
      simp only [hg]
      exact Or.inl trivial
    | some r =>
      simp only [hg]
      by_cases hok : (!r.ok) = true
      · rw [if_pos hok]
        exact Or.inl rfl
      · rw [if_neg hok]
        cases hf : r.page.form with
        | none =>
          simp only [hf]
          exact Or.inl trivial
        | some f =>
          simp only [hf]
          cases hp : env.post (resolveAction f) (buildLoginData f u p) with
          | none =>
            simp only [hp]
            exact Or.inl trivial
          | some lr =>
            simp only [hp]
            by_cases hlok : (!lr.ok) = true
            · rw [if_pos hlok]
              exact Or.inl rfl
            · rw [if_neg hlok]
              by_cases hJ : loginSuccessJudge lr.text = true
              · rw [if_pos hJ]
                exact Or.inr ⟨lr.url, rfl⟩
              · rw [if_neg hJ]
                exact Or.inl rfl
  refine ⟨?_, ?_, rfl, rfl, rfl⟩
  · intro hf
    rcases key with h | ⟨v, h⟩
    · rw [h]
    · rw [h] at hf
      exact Bool.noConfusion hf
  · intro ht
    rcases key with h | ⟨v, h⟩
    · rw [h] at ht
      exact Bool.noConfusion ht
    · rw [h]
      exact ⟨v, rfl⟩

/-- Witness for C10: a failed login leaves the state unchanged, a
successful login caches a URL, and the remaining calls keep the state. -/
theorem results_url_frame_witness :
    (login envFail ⟨none⟩ "u" "p").2 = ⟨none⟩ ∧
    (∃ v, (login env3 ⟨none⟩ "user" "pass").2.results_url = some v) ∧
    (check_results envFail ⟨none⟩).2 = ⟨none⟩ :=
  ⟨(results_url_frame envFail ⟨none⟩ "u" "p" "x").1 (by decide),
   (results_url_frame env3 ⟨none⟩ "user" "pass" "x").2.1 (by decide),
   (results_url_frame envFail ⟨none⟩ "u" "p" "x").2.2.1⟩

end Crawler
